import Mathlib

/-
  Verification of the LazzyORM query-builder core (lazzy_query.py,
  lazzy_update.py, lazzy_delete.py, lazzy_fetch.py, exceptions.py)
  as a shallow embedding in Lean 4.

  Python strings are modelled as `List Char`; Python values that flow
  through the builders are modelled by `PyVal`; the MySQL driver and the
  connection pool are modelled by an oracle (`Driver`) deciding which
  driver calls succeed, and each execution method is translated into a
  pure function that returns its outcome together with the trace of
  driver-level events it performed (acquire / open cursor / execute /
  commit / rollback / close).
-/

/-- Python strings, modelled as lists of characters. -/
abbrev PyStr := List Char

/-- Coercion from Lean string literals to the Python-string model. -/
def pstr (s : String) : PyStr := s.toList

/-- Scalar Python runtime values that reach the builders. -/
inductive PyScalar : Type where
  | int (n : Int)
  | str (s : PyStr)
  | none
deriving DecidableEq, Repr

/-- Python runtime values that reach the builders: scalars, and `list` /
    `tuple` sequences of scalars (`isinstance(value, (list, tuple))`
    distinguishes the last two from scalars; sequences nested inside
    sequences never occur in the modelled call sites). -/
inductive PyVal : Type where
  | int (n : Int)
  | str (s : PyStr)
  | none
  | list (xs : List PyScalar)
  | tuple (xs : List PyScalar)
deriving DecidableEq, Repr

/-- View of a scalar as a general value. -/
def PyScalar.toVal : PyScalar → PyVal
  | .int n => .int n
  | .str s => .str s
  | .none => .none

/-- Exception kinds that can escape the modelled methods, following
    `exceptions.py` (the repository-defined kinds) plus the two Python /
    driver-level kinds that the code can let propagate:
    `mysqlError` models an uncaught `mysql.connector.Error` and
    `attributeError` models calling a method on `None`. -/
inductive PyExc : Type where
  | validationError
  | queryError
  | dataMappingError
  | connectionError
  | configurationError
  | poolExhaustedError
  | mysqlError
  | attributeError
deriving DecidableEq, Repr

/-- Alphanumeric test for Latin-1 supplement code points (0x80–0xFF),
    per the Unicode character database: the letters ª µ º À–Ö Ø–ö ø–ÿ and
    the numeric characters ² ³ ¹ ¼ ½ ¾. -/
def latin1Alnum (v : UInt32) : Bool :=
  v == 0xAA || v == 0xB2 || v == 0xB3 || v == 0xB5 || v == 0xB9 || v == 0xBA ||
  (0xBC ≤ v && v ≤ 0xBE) || (0xC0 ≤ v && v ≤ 0xD6) ||
  (0xD8 ≤ v && v ≤ 0xF6) || (0xF8 ≤ v && v ≤ 0xFF)

/-- Python `str.isalnum` at the character level. For code points below
    0x80 this is exactly ASCII `[A-Za-z0-9]`; for the Latin-1 supplement
    it follows the Unicode tables (`latin1Alnum`). Code points above
    0xFF are outside the modelled alphabet (every theorem below that
    quantifies over identifiers restricts them to this range). -/
def pyIsAlnumChar (c : Char) : Bool :=
  if c.val < 0x80 then c.isAlphanum
  else if c.val ≤ 0xFF then latin1Alnum c.val
  else false

/-- Python `str.isalnum` at the string level: non-empty and every
    character alphanumeric. -/
def pyIsAlnumStr (s : PyStr) : Bool :=
  !s.isEmpty && s.all pyIsAlnumChar

/-- Python `s.replace(old, '')` for a single-character `old`: removes
    every occurrence. -/
def pyRemoveChar (s : PyStr) (old : Char) : PyStr :=
  s.filter (fun c => c ≠ old)

/-- Identifier validation used for table names (`LazyUpdate.__init__`,
    `LazyDelete.__init__`) and for SET column names (`LazyUpdate.set`):
    Python `name.replace('_', '').isalnum()`. -/
def pyValidUnderscore (s : PyStr) : Bool :=
  pyIsAlnumStr (pyRemoveChar s '_')

/-- Identifier validation used for WHERE / ORDER BY column names:
    Python `name.replace('_', '').replace('.', '').isalnum()`. -/
def pyValidUnderscoreDot (s : PyStr) : Bool :=
  pyIsAlnumStr (pyRemoveChar (pyRemoveChar s '_') '.')

/-- Python `str.upper`, modelled at ASCII fidelity (every operator and
    direction string the source compares against is ASCII); non-ASCII
    characters are left unchanged. -/
def pyUpper (s : PyStr) : PyStr := s.map Char.toUpper

/-- Python `sep.join(parts)`. -/
def pyJoin (sep : PyStr) : List PyStr → PyStr
  | [] => []
  | [s] => s
  | s :: rest => s ++ sep ++ pyJoin sep rest

/-- Python `s.startswith(p)`. -/
def pyStartsWith : PyStr → PyStr → Bool
  | _, [] => true
  | [], _ => false
  | c :: s, p :: ps => c == p && pyStartsWith s ps

/-- Decimal rendering of an integer, as Python's f-string interpolation
    produces for an `int`. -/
def pyIntStr (n : Int) : PyStr := (toString n).toList

/-- Number of `%s` placeholders in a SQL fragment, counted as the number
    of `%` characters (a `%` can only come from a placeholder, since
    validated identifiers and the fixed syntax contain none). -/
def countPct (s : PyStr) : Nat := s.countP (fun c => c == '%')

/-- The claim's identifier character set `[A-Za-z0-9_.]`. -/
def asciiIdentChar (c : Char) : Bool :=
  c.isAlphanum || c == '_' || c == '.'

/-- Allow-list of comparison operators shared verbatim by
    `LazyQuery.where`, `LazyUpdate.where` and `LazyDelete.where`. -/
def allowedOperators : List PyStr :=
  [pstr ("="), pstr ("!="), pstr (">"), pstr ("<"), pstr (">="), pstr ("<="),
   pstr ("LIKE"), pstr ("IN"), pstr ("NOT IN")]

/-- Python `isinstance(value, (list, tuple))`. -/
def pyIsSeq : PyVal → Bool
  | .list _ => true
  | .tuple _ => true
  | _ => false

/-- Draft state of a `LazyQuery[T]` read builder (lazzy_query.py):
    the accumulator fields set in `__init__` plus the arity of the target
    model class `T` (the number of positional fields `model(*row)`
    accepts, used by the row mapper). -/
structure LazyQuery : Type where
  modelArity : Nat
  select_columns : List PyStr
  where_conditions : List PyStr
  where_params : List PyVal
  order_by : List PyStr
  limit_value : Option Int
  offset_value : Option Int
  table_name : PyStr
deriving DecidableEq, Repr

/-- `LazyQuery.select_all`. -/
def LazyQuery.select_all (q : LazyQuery) : LazyQuery :=
  { q with select_columns := [pstr ("*")] }

/-- `LazyQuery.select`: requires at least one column. -/
def LazyQuery.select (q : LazyQuery) (columns : List PyStr) : Except PyExc LazyQuery :=
  if columns.isEmpty then .error .validationError
  else .ok { q with select_columns := columns }

/-- `LazyQuery.where`: validates the operator against the allow-list and
    the column name via `pyValidUnderscoreDot`, then appends a predicate
    fragment and its bound parameters. For `IN` / `NOT IN` the value must
    be a list or tuple and contributes one `%s` per element; every other
    operator contributes a single `%s` (named `where_` because `where` is
    a Lean keyword). -/
def LazyQuery.where_ (q : LazyQuery) (column : PyStr) (value : PyVal)
    (operator : PyStr) : Except PyExc LazyQuery :=
  if ¬ (pyUpper operator ∈ allowedOperators) then .error .validationError
  else if pyValidUnderscoreDot column = false then .error .validationError
  else if pyUpper operator = pstr ("IN") ∨ pyUpper operator = pstr ("NOT IN") then
    match value with
    | .list xs =>
      .ok { q with
        where_conditions := q.where_conditions ++
          [column ++ pstr (" ") ++ pyUpper operator ++ pstr (" (") ++
            pyJoin (pstr (", ")) (List.replicate xs.length (pstr ("%s"))) ++ pstr (")")],
        where_params := q.where_params ++ xs.map PyScalar.toVal }
    | .tuple xs =>
      .ok { q with
        where_conditions := q.where_conditions ++
          [column ++ pstr (" ") ++ pyUpper operator ++ pstr (" (") ++
            pyJoin (pstr (", ")) (List.replicate xs.length (pstr ("%s"))) ++ pstr (")")],
        where_params := q.where_params ++ xs.map PyScalar.toVal }
    | _ => .error .validationError
  else
    .ok { q with
      where_conditions := q.where_conditions ++
        [column ++ pstr (" ") ++ operator ++ pstr (" %s")],
      where_params := q.where_params ++ [value] }

/-- `LazyQuery.order_by`: upper-cases the direction, requires it to be
    `ASC` or `DESC`, validates the column, appends `column direction`. -/
def LazyQuery.order_by_ (q : LazyQuery) (column : PyStr) (direction : PyStr) :
    Except PyExc LazyQuery :=
  if ¬ (pyUpper direction = pstr ("ASC") ∨ pyUpper direction = pstr ("DESC")) then
    .error .validationError
  else if pyValidUnderscoreDot column = false then .error .validationError
  else .ok { q with order_by := q.order_by ++ [column ++ pstr (" ") ++ pyUpper direction] }

/-- `LazyQuery.limit`: both arguments must be non-negative Python
    integers (`isinstance(x, int)` plus the sign check), otherwise
    `ValidationError`; stores them in `_limit_value` / `_offset_value`. -/
def LazyQuery.limit (q : LazyQuery) (limit : PyVal) (offset : PyVal) :
    Except PyExc LazyQuery :=
  match limit with
  | .int n =>
    if n < 0 then .error .validationError
    else
      match offset with
      | .int m =>
        if m < 0 then .error .validationError
        else .ok { q with limit_value := some n, offset_value := some m }
      | _ => .error .validationError
  | _ => .error .validationError

/-- The `SELECT ... FROM ...` head rendered by `LazyQuery._build_query`. -/
def selectClause (q : LazyQuery) : PyStr :=
  pstr ("SELECT ") ++ pyJoin (pstr (", ")) q.select_columns ++
    pstr (" FROM ") ++ q.table_name

/-- The `WHERE` clause appended by `LazyQuery._build_query` (and by
    `count`): empty when there are no accumulated conditions. -/
def whereClause (q : LazyQuery) : PyStr :=
  if q.where_conditions.isEmpty then []
  else pstr (" WHERE ") ++ pyJoin (pstr (" AND ")) q.where_conditions

/-- The `ORDER BY` clause appended by `LazyQuery._build_query`. -/
def orderClause (q : LazyQuery) : PyStr :=
  if q.order_by.isEmpty then []
  else pstr (" ORDER BY ") ++ pyJoin (pstr (", ")) q.order_by

/-- The `LIMIT` / `OFFSET` tail appended by `LazyQuery._build_query`:
    rendered only when `_limit_value is not None`, and the `OFFSET` part
    only when `_offset_value` is truthy (so an offset of `0` renders
    nothing). -/
def limitClause (q : LazyQuery) : PyStr :=
  match q.limit_value with
  | some n =>
    pstr (" LIMIT ") ++ pyIntStr n ++
      (match q.offset_value with
       | some m => if m ≠ 0 then pstr (" OFFSET ") ++ pyIntStr m else []
       | none => [])
  | none => []

/-- `LazyQuery._build_query`: first canonicalizes an empty column list to
    `['*']` (mutating the draft), then renders the statement text.
    Returns the mutated draft together with the SQL text. -/
def LazyQuery.build_query (q : LazyQuery) : LazyQuery × PyStr :=
  let q := if q.select_columns.isEmpty then { q with select_columns := [pstr ("*")] } else q
  (q, selectClause q ++ whereClause q ++ orderClause q ++ limitClause q)

/-- The statement text built by `LazyQuery.count` (built inline in the
    source, bypassing `_build_query`: no column normalization, no order,
    no limit). -/
def countSql (q : LazyQuery) : PyStr :=
  pstr ("SELECT COUNT(*) FROM ") ++ q.table_name ++ whereClause q

/-- Oracle for the external collaborators (connection pool and MySQL
    driver): which driver calls succeed, and what a successful execute
    returns. A failure flag set to `false` means the corresponding call
    raises `mysql.connector.Error`; `executeOk = false` covers a driver
    failure in `cursor.execute` or the subsequent fetch. `rows` is the
    `fetchall()` result, `rowcount` the `cursor.rowcount` after a
    mutation. -/
structure Driver : Type where
  getConnectionOk : Bool
  cursorOk : Bool
  executeOk : Bool
  commitOk : Bool
  rollbackOk : Bool
  rows : List (List PyVal)
  rowcount : Int
deriving DecidableEq, Repr

/-- Driver-level events observable by the pool / connection
    collaborators. Close and rollback events record the attempt (the
    source catches and logs close failures). `exec` carries the SQL text
    and the parameter argument passed to `cursor.execute` (`none` models
    passing Python `None`). -/
inductive Ev : Type where
  | acquire
  | cursorOpen
  | exec (sql : PyStr) (params : Option (List PyVal))
  | commit
  | rollback
  | closeCursor
  | closeConn
deriving DecidableEq, Repr

/-- Connection state carried by a `LazyQuery` instance across calls:
    whether `self._connection` and `self._cursor` are set. -/
structure ConnSt : Type where
  conn : Bool
  cur : Bool
deriving DecidableEq, Repr

/-- `LazyQuery._cleanup`: closes the cursor if set (errors caught and
    logged), then the connection if set, clearing both fields. -/
def cleanup (st : ConnSt) : ConnSt × List Ev :=
  (⟨false, false⟩,
   (if st.cur then [Ev.closeCursor] else []) ++
   (if st.conn then [Ev.closeConn] else []))

/-- `LazyQuery._ensure_connection`: does nothing when `self._connection`
    is already set; otherwise acquires a connection and opens a cursor.
    A pool failure is caught and re-raised as `QueryError` with nothing
    acquired; a cursor failure is caught and re-raised as `QueryError`
    with the connection already assigned to `self._connection`. -/
def ensure_connection (d : Driver) (st : ConnSt) :
    Except PyExc Unit × ConnSt × List Ev :=
  if st.conn then (.ok (), st, [])
  else if d.getConnectionOk = false then (.error .queryError, st, [])
  else if d.cursorOk = false then (.error .queryError, ⟨true, false⟩, [Ev.acquire])
  else (.ok (), ⟨true, true⟩, [Ev.acquire, Ev.cursorOpen])

/-- `LazyQuery.to_list`: calls `_ensure_connection` outside of any
    `try`/`finally` (so its failure propagates without cleanup), then
    builds the query, executes it with the accumulated parameters (an
    empty parameter list is passed as `None`), maps the rows to the model
    (a `TypeError` from an arity mismatch is converted to `QueryError`),
    and releases cursor and connection in the `finally` block on every
    path inside the `try`. Returns the outcome, the (possibly mutated)
    draft, the final connection state and the event trace. -/
def LazyQuery.to_list (d : Driver) (q : LazyQuery) (st : ConnSt) :
    Except PyExc (List (List PyVal)) × LazyQuery × ConnSt × List Ev :=
  match ensure_connection d st with
  | (.error e, st1, evs) => (.error e, q, st1, evs)
  | (.ok _, st1, evs) =>
    let (q1, sql) := q.build_query
    if st1.cur = false then
      -- `self._cursor` is `None`: `None.execute` raises `AttributeError`,
      -- which is not a driver `Error`, so only the `finally` block runs.
      let (st2, evs2) := cleanup st1
      (.error .attributeError, q1, st2, evs ++ evs2)
    else
      let params := if q1.where_params.isEmpty then none else some q1.where_params
      if d.executeOk = false then
        let (st2, evs2) := cleanup st1
        (.error .queryError, q1, st2, evs ++ [Ev.exec sql params] ++ evs2)
      else if d.rows.isEmpty then
        let (st2, evs2) := cleanup st1
        (.ok [], q1, st2, evs ++ [Ev.exec sql params] ++ evs2)
      else if d.rows.all (fun r => r.length = q1.modelArity) then
        let (st2, evs2) := cleanup st1
        (.ok d.rows, q1, st2, evs ++ [Ev.exec sql params] ++ evs2)
      else
        let (st2, evs2) := cleanup st1
        (.error .queryError, q1, st2, evs ++ [Ev.exec sql params] ++ evs2)

/-- `LazyQuery.first`: permanently sets `self._limit_value = 1` on the
    draft, then delegates to `to_list` and returns its head. -/
def LazyQuery.first (d : Driver) (q : LazyQuery) (st : ConnSt) :
    Except PyExc (Option (List PyVal)) × LazyQuery × ConnSt × List Ev :=
  let q1 := { q with limit_value := some (1 : Int) }
  match q1.to_list d st with
  | (.ok rs, q2, st2, evs) => (.ok rs.head?, q2, st2, evs)
  | (.error e, q2, st2, evs) => (.error e, q2, st2, evs)

/-- `LazyQuery.count`: builds `SELECT COUNT(*) ...` inline (no column
    normalization, no order / limit), executes it, and returns
    `result[0] if result else 0` from `fetchone()`; cleanup in `finally`
    as in `to_list`, with `_ensure_connection` again outside the `try`. -/
def LazyQuery.count (d : Driver) (q : LazyQuery) (st : ConnSt) :
    Except PyExc PyVal × LazyQuery × ConnSt × List Ev :=
  match ensure_connection d st with
  | (.error e, st1, evs) => (.error e, q, st1, evs)
  | (.ok _, st1, evs) =>
    let sql := countSql q
    if st1.cur = false then
      let (st2, evs2) := cleanup st1
      (.error .attributeError, q, st2, evs ++ evs2)
    else
      let params := if q.where_params.isEmpty then none else some q.where_params
      if d.executeOk = false then
        let (st2, evs2) := cleanup st1
        (.error .queryError, q, st2, evs ++ [Ev.exec sql params] ++ evs2)
      else
        let v : PyVal :=
          match d.rows.head? with
          | some (x :: _) => x
          | some [] => .int 0
          | none => .int 0
        let (st2, evs2) := cleanup st1
        (.ok v, q, st2, evs ++ [Ev.exec sql params] ++ evs2)

/-- Python `dict` assignment `d[k] = v` on an insertion-ordered
    association list: updates the value in place if the key exists,
    otherwise appends. -/
def dictSet (d : List (PyStr × PyVal)) (k : PyStr) (v : PyVal) :
    List (PyStr × PyVal) :=
  if d.any (fun kv => kv.1 = k) then
    d.map (fun kv => if kv.1 = k then (k, v) else kv)
  else d ++ [(k, v)]

/-- Python `dict.update(values)`: assign each pair of `values` in order. -/
def dictUpdate (d : List (PyStr × PyVal)) : List (PyStr × PyVal) → List (PyStr × PyVal)
  | [] => d
  | (k, v) :: rest => dictUpdate (dictSet d k v) rest

/-- Draft state of a `LazyUpdate` builder (lazzy_update.py): the target
    table, the insertion-ordered SET mapping, and the accumulated WHERE
    fragments and parameters. -/
structure LazyUpdate : Type where
  table_name : PyStr
  set_values : List (PyStr × PyVal)
  where_conditions : List PyStr
  where_params : List PyVal
deriving DecidableEq, Repr

/-- `LazyUpdate.__init__`: the table name must be a non-empty string, a
    connection pool must be supplied, and the table name must pass
    `pyValidUnderscore`; the accumulators start empty. -/
def LazyUpdate.init (table_name : PyStr) (pool_given : Bool) :
    Except PyExc LazyUpdate :=
  if table_name.isEmpty then .error .validationError
  else if pool_given = false then .error .validationError
  else if pyValidUnderscore table_name = false then .error .validationError
  else .ok ⟨table_name, [], [], []⟩

/-- `LazyUpdate.set`: the argument must be a non-empty dict whose keys
    all pass `pyValidUnderscore`; merges it into `_set_values` via dict
    update semantics. -/
def LazyUpdate.set (u : LazyUpdate) (values : List (PyStr × PyVal)) :
    Except PyExc LazyUpdate :=
  if values.isEmpty then .error .validationError
  else if values.all (fun kv => pyValidUnderscore kv.1) = false then
    .error .validationError
  else .ok { u with set_values := dictUpdate u.set_values values }

/-- `LazyUpdate.where`: identical predicate accumulation to
    `LazyQuery.where` (same allow-list, same column validation, same
    `IN` / `NOT IN` expansion). -/
def LazyUpdate.where_ (u : LazyUpdate) (column : PyStr) (value : PyVal)
    (operator : PyStr) : Except PyExc LazyUpdate :=
  if ¬ (pyUpper operator ∈ allowedOperators) then .error .validationError
  else if pyValidUnderscoreDot column = false then .error .validationError
  else if pyUpper operator = pstr ("IN") ∨ pyUpper operator = pstr ("NOT IN") then
    match value with
    | .list xs =>
      .ok { u with
        where_conditions := u.where_conditions ++
          [column ++ pstr (" ") ++ pyUpper operator ++ pstr (" (") ++
            pyJoin (pstr (", ")) (List.replicate xs.length (pstr ("%s"))) ++ pstr (")")],
        where_params := u.where_params ++ xs.map PyScalar.toVal }
    | .tuple xs =>
      .ok { u with
        where_conditions := u.where_conditions ++
          [column ++ pstr (" ") ++ pyUpper operator ++ pstr (" (") ++
            pyJoin (pstr (", ")) (List.replicate xs.length (pstr ("%s"))) ++ pstr (")")],
        where_params := u.where_params ++ xs.map PyScalar.toVal }
    | _ => .error .validationError
  else
    .ok { u with
      where_conditions := u.where_conditions ++
        [column ++ pstr (" ") ++ operator ++ pstr (" %s")],
      where_params := u.where_params ++ [value] }

/-- `LazyUpdate._build_query`: fails with `ValidationError` when no SET
    values were supplied; otherwise renders
    `UPDATE <table> SET c1 = %s, ...` with the SET parameters first, then
    appends the WHERE clause and its parameters when conditions exist
    (when none exist the source only logs a warning). -/
def LazyUpdate.build_query (u : LazyUpdate) : Except PyExc (PyStr × List PyVal) :=
  if u.set_values.isEmpty then .error .validationError
  else
    let sql := pstr ("UPDATE ") ++ u.table_name ++ pstr (" SET ") ++
      pyJoin (pstr (", ")) (u.set_values.map (fun kv => kv.1 ++ pstr (" = %s")))
    let params := u.set_values.map (fun kv => kv.2)
    if u.where_conditions.isEmpty then .ok (sql, params)
    else
      .ok (sql ++ pstr (" WHERE ") ++ pyJoin (pstr (" AND ")) u.where_conditions,
           params ++ u.where_params)

/-- Exception propagating from the `except Error` handler of a mutating
    `execute`: the handler first attempts `rollback()`; if the rollback
    itself raises, that driver error escapes instead of the intended
    `QueryError`. -/
def rollbackExc (d : Driver) : PyExc :=
  if d.rollbackOk then .queryError else .mysqlError

/-- `LazyUpdate.execute`: note that, unlike `LazyDelete.execute`, it has
    NO confirmation flag — with zero predicates it proceeds after only a
    logged warning. Acquisition happens inside the `try`, so every driver
    failure is caught (`rollback` attempted whenever `self._connection`
    is set, then `QueryError`), the `ValidationError` from
    `_build_query` propagates uncaught, and `_cleanup` runs in `finally`
    on every path. -/
def LazyUpdate.execute (d : Driver) (u : LazyUpdate) :
    Except PyExc Int × List Ev :=
  if d.getConnectionOk = false then
    (.error .queryError, [])
  else if d.cursorOk = false then
    (.error (rollbackExc d), [Ev.acquire, Ev.rollback, Ev.closeConn])
  else
    match u.build_query with
    | .error e =>
      (.error e, [Ev.acquire, Ev.cursorOpen, Ev.closeCursor, Ev.closeConn])
    | .ok (sql, params) =>
      if d.executeOk = false then
        (.error (rollbackExc d),
         [Ev.acquire, Ev.cursorOpen, Ev.exec sql (some params), Ev.rollback,
          Ev.closeCursor, Ev.closeConn])
      else if d.commitOk = false then
        (.error (rollbackExc d),
         [Ev.acquire, Ev.cursorOpen, Ev.exec sql (some params), Ev.commit,
          Ev.rollback, Ev.closeCursor, Ev.closeConn])
      else
        (.ok d.rowcount,
         [Ev.acquire, Ev.cursorOpen, Ev.exec sql (some params), Ev.commit,
          Ev.closeCursor, Ev.closeConn])

/-- Draft state of a `LazyDelete` builder (lazzy_delete.py). -/
structure LazyDelete : Type where
  table_name : PyStr
  where_conditions : List PyStr
  where_params : List PyVal
  limit_value : Option Int
deriving DecidableEq, Repr

/-- `LazyDelete.__init__`: same checks as `LazyUpdate.__init__`. -/
def LazyDelete.init (table_name : PyStr) (pool_given : Bool) :
    Except PyExc LazyDelete :=
  if table_name.isEmpty then .error .validationError
  else if pool_given = false then .error .validationError
  else if pyValidUnderscore table_name = false then .error .validationError
  else .ok ⟨table_name, [], [], none⟩

/-- `LazyDelete.where`: identical predicate accumulation to
    `LazyQuery.where`. -/
def LazyDelete.where_ (x : LazyDelete) (column : PyStr) (value : PyVal)
    (operator : PyStr) : Except PyExc LazyDelete :=
  if ¬ (pyUpper operator ∈ allowedOperators) then .error .validationError
  else if pyValidUnderscoreDot column = false then .error .validationError
  else if pyUpper operator = pstr ("IN") ∨ pyUpper operator = pstr ("NOT IN") then
    match value with
    | .list xs =>
      .ok { x with
        where_conditions := x.where_conditions ++
          [column ++ pstr (" ") ++ pyUpper operator ++ pstr (" (") ++
            pyJoin (pstr (", ")) (List.replicate xs.length (pstr ("%s"))) ++ pstr (")")],
        where_params := x.where_params ++ xs.map PyScalar.toVal }
    | .tuple xs =>
      .ok { x with
        where_conditions := x.where_conditions ++
          [column ++ pstr (" ") ++ pyUpper operator ++ pstr (" (") ++
            pyJoin (pstr (", ")) (List.replicate xs.length (pstr ("%s"))) ++ pstr (")")],
        where_params := x.where_params ++ xs.map PyScalar.toVal }
    | _ => .error .validationError
  else
    .ok { x with
      where_conditions := x.where_conditions ++
        [column ++ pstr (" ") ++ operator ++ pstr (" %s")],
      where_params := x.where_params ++ [value] }

/-- `LazyDelete.limit`: a non-negative Python integer. -/
def LazyDelete.limit (x : LazyDelete) (limit : PyVal) : Except PyExc LazyDelete :=
  match limit with
  | .int n =>
    if n < 0 then .error .validationError
    else .ok { x with limit_value := some n }
  | _ => .error .validationError

/-- `LazyDelete._build_query`: `DELETE FROM <table>`, then the WHERE
    clause and its parameters when conditions exist (only a warning is
    logged otherwise), then ` LIMIT n` whenever `_limit_value` is not
    `None`. -/
def LazyDelete.build_query (x : LazyDelete) : PyStr × List PyVal :=
  let sql := pstr ("DELETE FROM ") ++ x.table_name
  let (sql, params) :=
    if x.where_conditions.isEmpty then (sql, ([] : List PyVal))
    else (sql ++ pstr (" WHERE ") ++ pyJoin (pstr (" AND ")) x.where_conditions,
          x.where_params)
  match x.limit_value with
  | some n => (sql ++ pstr (" LIMIT ") ++ pyIntStr n, params)
  | none => (sql, params)

/-- `LazyDelete.execute(confirm_delete_all=False)`: the safety gate —
    with zero predicates and the flag not set it fails with
    `ValidationError` before any connection is acquired; otherwise it
    behaves like `LazyUpdate.execute` (acquire, build, execute, commit,
    rollback attempt on driver failure, cleanup in `finally`). -/
def LazyDelete.execute (d : Driver) (x : LazyDelete)
    (confirm_delete_all : Bool) : Except PyExc Int × List Ev :=
  if x.where_conditions.isEmpty ∧ confirm_delete_all = false then
    (.error .validationError, [])
  else if d.getConnectionOk = false then
    (.error .queryError, [])
  else if d.cursorOk = false then
    (.error (rollbackExc d), [Ev.acquire, Ev.rollback, Ev.closeConn])
  else
    let (sql, params) := x.build_query
    if d.executeOk = false then
      (.error (rollbackExc d),
       [Ev.acquire, Ev.cursorOpen, Ev.exec sql (some params), Ev.rollback,
        Ev.closeCursor, Ev.closeConn])
    else if d.commitOk = false then
      (.error (rollbackExc d),
       [Ev.acquire, Ev.cursorOpen, Ev.exec sql (some params), Ev.commit,
        Ev.rollback, Ev.closeCursor, Ev.closeConn])
    else
      (.ok d.rowcount,
       [Ev.acquire, Ev.cursorOpen, Ev.exec sql (some params), Ev.commit,
        Ev.closeCursor, Ev.closeConn])

/-- Python `repr` of a scalar, as used by tuple formatting inside the
    cache-key f-string: decimal for ints, `None` for `None`, and the
    quoted form for strings (modelled for strings without quotes,
    backslashes or non-printable characters, which is all the key
    derivation ever sees here). -/
def pyReprScalar : PyScalar → PyStr
  | .int n => pyIntStr n
  | .str s => '\'' :: (s ++ ['\''])
  | .none => pstr ("None")

/-- Python `str` of the `params` attribute of a `LazyFetch` as the
    f-string interpolates it: `None` when absent, otherwise the tuple
    display with a trailing comma for a 1-tuple. -/
def pyStrParams : Option (List PyScalar) → PyStr
  | Option.none => pstr ("None")
  | some [] => pstr ("()")
  | some [v] => pstr ("(") ++ pyReprScalar v ++ pstr (",)")
  | some vs => pstr ("(") ++ pyJoin (pstr (", ")) (vs.map pyReprScalar) ++ pstr (")")

/-- State of a `LazyFetch[T]` instance (lazzy_fetch.py): the model class
    (name and positional arity), the SQL text, the optional parameter
    tuple and the caching flag. -/
structure LazyFetch : Type where
  modelName : PyStr
  modelArity : Nat
  query : PyStr
  params : Option (List PyScalar)
  use_cache : Bool
deriving DecidableEq, Repr

/-- The derived cache key `f"{model.__name__}_{query}_{params}"`. -/
def LazyFetch.key (f : LazyFetch) : PyStr :=
  f.modelName ++ pstr ("_") ++ f.query ++ pstr ("_") ++ pyStrParams f.params

/-- The process-wide `LazyFetch._global_lookups` dictionary: an
    insertion-ordered map from derived keys to previously fetched row
    sets. -/
abbrev Cache := List (PyStr × List (List PyVal))

/-- Python `key in dict` / `dict[key]` combined: the stored value. -/
def cacheFind (c : Cache) (k : PyStr) : Option (List (List PyVal)) :=
  match c.find? (fun kv => kv.1 = k) with
  | some kv => some kv.2
  | Option.none => Option.none

/-- Python `dict[key] = v`: update in place or append. -/
def cacheSet (c : Cache) (k : PyStr) (v : List (List PyVal)) : Cache :=
  if c.any (fun kv => kv.1 = k) then
    c.map (fun kv => if kv.1 = k then (k, v) else kv)
  else c ++ [(k, v)]

/-- `fetch_lookups(connection, model, query, params)`: opens a cursor
    (both a cursor failure and an execute / fetch failure are caught and
    re-raised as `QueryError`), maps the rows to the model (`TypeError`
    on an arity mismatch, caught and re-raised as `QueryError`), and
    closes the cursor in `finally` whenever it was opened. -/
def fetch_lookups (d : Driver) (arity : Nat) (query : PyStr)
    (params : Option (List PyScalar)) :
    Except PyExc (List (List PyVal)) × List Ev :=
  let p := (params.map (fun vs => vs.map PyScalar.toVal))
  if d.cursorOk = false then (.error .queryError, [])
  else if d.executeOk = false then
    (.error .queryError, [Ev.cursorOpen, Ev.exec query p, Ev.closeCursor])
  else if d.rows.all (fun r => r.length = arity) then
    (.ok d.rows, [Ev.cursorOpen, Ev.exec query p, Ev.closeCursor])
  else
    (.error .queryError, [Ev.cursorOpen, Ev.exec query p, Ev.closeCursor])

/-- `LazyFetch.get`: on a cache-eligible hit returns the stored rows
    with no driver interaction at all; otherwise acquires a connection (a
    pool failure is caught and re-raised as `QueryError` with the cache
    untouched), delegates to `fetch_lookups`, stores the result in the
    global cache only when the fetch fully succeeded and caching is
    enabled, and closes the connection in `finally` whenever it was
    acquired. Returns the outcome, the new cache state and the event
    trace. -/
def LazyFetch.get (d : Driver) (f : LazyFetch) (c : Cache) :
    Except PyExc (List (List PyVal)) × Cache × List Ev :=
  match (if f.use_cache then cacheFind c f.key else Option.none) with
  | some v => (.ok v, c, [])
  | Option.none =>
    if d.getConnectionOk = false then (.error .queryError, c, [])
    else
      match fetch_lookups d f.modelArity f.query f.params with
      | (.error e, evs) => (.error e, c, [Ev.acquire] ++ evs ++ [Ev.closeConn])
      | (.ok data, evs) =>
        let c1 := if f.use_cache then cacheSet c f.key data else c
        (.ok data, c1, [Ev.acquire] ++ evs ++ [Ev.closeConn])

/-- `LazyFetch.clear_cache(model_name=None)`: with a truthy name,
    deletes exactly the keys starting with `f"{model_name}_"`; with
    `None` (or a falsy empty string) clears the whole dictionary. -/
def clear_cache (model_name : Option PyStr) (c : Cache) : Cache :=
  match model_name with
  | some n =>
    if n.isEmpty then []
    else c.filter (fun kv => pyStartsWith kv.1 (n ++ pstr ("_")) = false)
  | Option.none => []

deriving instance DecidableEq for Except

/-- Fresh read-builder draft over a two-field model on table `users`,
    exactly as `LazyQuery.__init__` leaves it. -/
def qFresh : LazyQuery :=
  ⟨2, [], [], [], [], Option.none, Option.none, pstr ("users")⟩

/-- Driver oracle on which every call succeeds, returning no rows and an
    affected-row count of 3. -/
def drvOK : Driver := ⟨true, true, true, true, true, [], 3⟩

/-- Update draft with one SET value and zero predicates. -/
def updSample : LazyUpdate :=
  ⟨pstr ("users"), [(pstr ("name"), PyVal.str (pstr ("x")))], [], []⟩

/-- Delete draft with zero predicates. -/
def delSample : LazyDelete := ⟨pstr ("users"), [], [], Option.none⟩

/-- C1 counterexample: an update draft with zero predicates and no
    affirmative flag (the source's `LazyUpdate.execute` accepts none)
    does not fail with `ValidationError` — it dispatches the full-table
    `UPDATE users SET name = %s`, commits and returns the affected-row
    count. -/
theorem c1_counterexample :
    LazyUpdate.execute drvOK updSample =
      (.ok 3,
       [Ev.acquire, Ev.cursorOpen,
        Ev.exec (pstr ("UPDATE users SET name = %s")) (some [PyVal.str (pstr ("x"))]),
        Ev.commit, Ev.closeCursor, Ev.closeConn]) ∧
    (LazyUpdate.execute drvOK updSample).1 ≠ .error .validationError := by
  decide

/-- C1 (amended): only the delete builder carries the zero-predicate
    safety gate. `LazyDelete.execute` with zero predicates and
    `confirm_delete_all` absent / false fails with `ValidationError`
    before any connection is acquired (empty event trace), and with the
    flag true it dispatches and commits the full-table DELETE;
    `LazyUpdate.execute` has no such flag and, with zero predicates,
    dispatches and commits the full-table UPDATE after only a logged
    warning. -/
theorem c1_zero_predicate_guard (d : Driver) (x : LazyDelete) (u : LazyUpdate)
    (hx : x.where_conditions = []) (hu : u.where_conditions = [])
    (hset : u.set_values ≠ [])
    (hd : d.getConnectionOk = true) (hc : d.cursorOk = true)
    (he : d.executeOk = true) (hcm : d.commitOk = true) :
    LazyDelete.execute d x false = (.error .validationError, []) ∧
    LazyDelete.execute d x true =
      (.ok d.rowcount,
       [Ev.acquire, Ev.cursorOpen,
        Ev.exec x.build_query.1 (some x.build_query.2),
        Ev.commit, Ev.closeCursor, Ev.closeConn]) ∧
    (∃ sql params, LazyUpdate.build_query u = .ok (sql, params) ∧
      LazyUpdate.execute d u =
        (.ok d.rowcount,
         [Ev.acquire, Ev.cursorOpen, Ev.exec sql (some params), Ev.commit,
          Ev.closeCursor, Ev.closeConn])) := by
  refine ⟨?_, ?_, ?_⟩
  · simp [LazyDelete.execute, hx]
  · simp [LazyDelete.execute, hx, hd, hc, he, hcm]
  · have hb : LazyUpdate.build_query u =
        .ok (pstr ("UPDATE ") ++ u.table_name ++ pstr (" SET ") ++
          pyJoin (pstr (", ")) (u.set_values.map (fun kv => kv.1 ++ pstr (" = %s"))),
          u.set_values.map (fun kv => kv.2)) := by
      simp [LazyUpdate.build_query, hu, List.isEmpty_iff, hset]
    exact ⟨_, _, hb, by simp [LazyUpdate.execute, hd, hc, he, hcm, hb]⟩

/-- C1 witness: the guard and the unguarded update at concrete drafts. -/
theorem c1_zero_predicate_guard_witness :
    LazyDelete.execute drvOK delSample false = (.error .validationError, []) ∧
    LazyDelete.execute drvOK delSample true =
      (.ok 3,
       [Ev.acquire, Ev.cursorOpen,
        Ev.exec delSample.build_query.1 (some delSample.build_query.2),
        Ev.commit, Ev.closeCursor, Ev.closeConn]) ∧
    (∃ sql params, LazyUpdate.build_query updSample = .ok (sql, params) ∧
      LazyUpdate.execute drvOK updSample =
        (.ok 3,
         [Ev.acquire, Ev.cursorOpen, Ev.exec sql (some params), Ev.commit,
          Ev.closeCursor, Ev.closeConn])) := by
  exact c1_zero_predicate_guard drvOK delSample updSample rfl rfl (by decide) rfl rfl rfl rfl

/-- Driver oracle where the pool hands out a connection but
    `connection.cursor()` raises a driver `Error`. -/
def drvCursorFail : Driver := ⟨true, false, true, true, true, [], 0⟩

/-- C3: at the failing input (pool acquisition succeeds, cursor creation
    raises) `LazyQuery.to_list` propagates `QueryError` while the
    acquired connection is retained (`self._connection` still set, no
    close event after the acquire) — `_ensure_connection` runs outside
    the `try`/`finally`, so the claimed exactly-once release does not
    happen on this path. -/
theorem c3_cursor_failure_leaks_connection :
    LazyQuery.to_list drvCursorFail qFresh ⟨false, false⟩ =
      (.error .queryError, qFresh, ⟨true, false⟩, [Ev.acquire]) ∧
    Ev.closeConn ∉ ([Ev.acquire] : List Ev) ∧
    Ev.closeCursor ∉ ([Ev.acquire] : List Ev) := by
  decide

/-- C2 counterexample: `é` lies outside `[A-Za-z0-9_.]`, yet Python's
    Unicode-aware `isalnum` accepts it, so `where` on the column `café`
    succeeds and the accepted identifier (including `é`) is embedded in
    the predicate fragment of the draft — no `ValidationError` is
    raised. -/
theorem c2_counterexample :
    ('é' ∈ pstr ("café") ∧ asciiIdentChar 'é' = false) ∧
    LazyQuery.where_ qFresh (pstr ("café")) (PyVal.int 1) (pstr ("=")) =
      .ok { qFresh with where_conditions := [pstr ("café = %s")],
                        where_params := [PyVal.int 1] } ∧
    'é' ∈ pstr ("café = %s") := by
  decide

/-- A string containing a character that fails Python's per-character
    alphanumeric test is rejected by `str.isalnum`. -/
theorem pyIsAlnumStr_eq_false {s : PyStr} {c : Char} (hc : c ∈ s)
    (hbad : pyIsAlnumChar c = false) : pyIsAlnumStr s = false := by
  have hall : s.all pyIsAlnumChar = false := by
    rw [List.all_eq_false]
    exact ⟨c, hc, by simp [hbad]⟩
  simp [pyIsAlnumStr, hall]

/-- C2 (amended): for identifiers over the ASCII range the claim holds —
    any character outside `[A-Za-z0-9_.]` makes both validators fail, so
    `where` / `order_by` and the update / delete constructors all fail
    with `ValidationError` and the identifier never reaches SQL text.
    (For non-ASCII input the claim fails: Python's `isalnum` is
    Unicode-aware, see the counterexample.) -/
theorem c2_ascii_identifier_validation (s : PyStr)
    (hascii : ∀ c ∈ s, c.val < 0x80)
    (hbad : ∃ c ∈ s, asciiIdentChar c = false) :
    pyValidUnderscoreDot s = false ∧ pyValidUnderscore s = false ∧
    (∀ q v op, LazyQuery.where_ q s v op = .error .validationError) ∧
    (∀ q dir, LazyQuery.order_by_ q s dir = .error .validationError) ∧
    (∀ b, LazyUpdate.init s b = .error .validationError) ∧
    (∀ b, LazyDelete.init s b = .error .validationError) := by
  obtain ⟨c, hc, hbadc⟩ := hbad
  have hund : c ≠ '_' := by
    intro h
    rw [h] at hbadc
    revert hbadc
    decide
  have hdot : c ≠ '.' := by
    intro h
    rw [h] at hbadc
    revert hbadc
    decide
  have halnum : pyIsAlnumChar c = false := by
    have h1 : c.val < 0x80 := hascii c hc
    have h2 : c.isAlphanum = false := by
      simp only [asciiIdentChar, Bool.or_eq_false_iff] at hbadc
      exact hbadc.1.1
    simp [pyIsAlnumChar, h1, h2]
  have hv1 : pyValidUnderscoreDot s = false := by
    apply pyIsAlnumStr_eq_false _ halnum
    simp [pyRemoveChar, List.mem_filter, hc, hund, hdot]
  have hv2 : pyValidUnderscore s = false := by
    apply pyIsAlnumStr_eq_false _ halnum
    simp [pyRemoveChar, List.mem_filter, hc, hund]
  have hne : s ≠ [] := by
    intro h
    rw [h] at hc
    exact absurd hc (List.not_mem_nil c)
  refine ⟨hv1, hv2, ?_, ?_, ?_, ?_⟩
  · intro q v op
    by_cases hop : pyUpper op ∈ allowedOperators
    · simp [LazyQuery.where_, hop, hv1]
    · simp [LazyQuery.where_, hop]
  · intro q dir
    by_cases hdir : pyUpper dir = pstr ("ASC") ∨ pyUpper dir = pstr ("DESC")
    · simp [LazyQuery.order_by_, hdir, hv1]
    · simp [LazyQuery.order_by_, hdir]
  · intro b
    cases b <;> simp [LazyUpdate.init, List.isEmpty_iff, hne, hv2]
  · intro b
    cases b <;> simp [LazyDelete.init, List.isEmpty_iff, hne, hv2]

/-- C2 witness: the ASCII identifier `a;b` (with `;` outside the set) is
    rejected everywhere. -/
theorem c2_ascii_identifier_validation_witness :
    pyValidUnderscoreDot (pstr ("a;b")) = false ∧
    pyValidUnderscore (pstr ("a;b")) = false ∧
    LazyQuery.where_ qFresh (pstr ("a;b")) (PyVal.int 1) (pstr ("=")) =
      .error .validationError ∧
    LazyQuery.order_by_ qFresh (pstr ("a;b")) (pstr ("ASC")) =
      .error .validationError ∧
    LazyUpdate.init (pstr ("a;b")) true = .error .validationError ∧
    LazyDelete.init (pstr ("a;b")) true = .error .validationError := by
  have h := c2_ascii_identifier_validation (pstr ("a;b")) (by decide)
    ⟨';', by decide, by decide⟩
  exact ⟨h.1, h.2.1, h.2.2.1 qFresh (PyVal.int 1) (pstr ("=")),
    h.2.2.2.1 qFresh (pstr ("ASC")), h.2.2.2.2.1 true, h.2.2.2.2.2 true⟩

/-- The draft returned by `_build_query` is the input draft with an
    empty column list canonicalized to `['*']`. -/
theorem build_query_fst (q : LazyQuery) :
    q.build_query.1 =
      if q.select_columns.isEmpty then { q with select_columns := [pstr ("*")] }
      else q := rfl

/-- Column normalization in `_build_query` touches no field other than
    `select_columns`. -/
theorem build_query_fields (q : LazyQuery) :
    q.build_query.1.modelArity = q.modelArity ∧
    q.build_query.1.where_conditions = q.where_conditions ∧
    q.build_query.1.where_params = q.where_params ∧
    q.build_query.1.order_by = q.order_by ∧
    q.build_query.1.limit_value = q.limit_value ∧
    q.build_query.1.offset_value = q.offset_value ∧
    q.build_query.1.table_name = q.table_name := by
  rw [build_query_fst]
  cases h : q.select_columns.isEmpty <;> simp

/-- Driver oracle returning a single one-column row. -/
def drvBadRow : Driver := ⟨true, true, true, true, true, [[PyVal.int 1]], 0⟩

/-- C4 counterexample: mapping a 1-column row onto the 2-field model
    fails with `QueryError` — the generic kind also used for driver
    failures — not with the distinct `DataMappingError` the claim
    requires (that class is defined in exceptions.py but never raised by
    the mapping code). -/
theorem c4_counterexample :
    (LazyQuery.to_list drvBadRow qFresh ⟨false, false⟩).1 = .error .queryError ∧
    qFresh.modelArity = 2 ∧
    PyExc.queryError ≠ PyExc.dataMappingError := by
  decide

/-- C4 (amended): a result row whose arity differs from the model's
    field count makes both `LazyQuery.to_list` and `fetch_lookups` fail
    with `QueryError` (the `TypeError` from positional construction is
    caught and re-raised as `QueryError`), so schema drift is NOT
    distinguishable by kind from a driver failure; `DataMappingError` is
    never produced. -/
theorem c4_arity_mismatch_is_query_error (d : Driver) (q : LazyQuery)
    (h1 : d.getConnectionOk = true) (h2 : d.cursorOk = true)
    (h3 : d.executeOk = true)
    (h4 : ∃ r ∈ d.rows, r.length ≠ q.modelArity) :
    (LazyQuery.to_list d q ⟨false, false⟩).1 = .error .queryError ∧
    (∀ query params, (fetch_lookups d q.modelArity query params).1 =
      .error .queryError) := by
  obtain ⟨r, hr, hlen⟩ := h4
  have hall : d.rows.all (fun r => r.length = q.modelArity) = false := by
    rw [List.all_eq_false]
    exact ⟨r, hr, by simp [hlen]⟩
  have hne : d.rows.isEmpty = false := by
    cases hrows : d.rows with
    | nil => rw [hrows] at hr; exact absurd hr (List.not_mem_nil r)
    | cons a l => simp
  have hprop : ¬ ∀ x ∈ d.rows, x.length = q.build_query.1.modelArity := by
    intro hforall
    rw [(build_query_fields q).1] at hforall
    exact hlen (hforall r hr)
  constructor
  · simp [LazyQuery.to_list, ensure_connection, h1, h2, h3, hne, hprop]
  · intro query params
    simp [fetch_lookups, h2, h3, hall]

/-- C4 witness: the amended behaviour at the concrete bad row. -/
theorem c4_arity_mismatch_is_query_error_witness :
    (LazyQuery.to_list drvBadRow qFresh ⟨false, false⟩).1 = .error .queryError ∧
    (∀ query params, (fetch_lookups drvBadRow qFresh.modelArity query params).1 =
      .error .queryError) :=
  c4_arity_mismatch_is_query_error drvBadRow qFresh rfl rfl rfl
    ⟨[PyVal.int 1], by decide, by decide⟩

/-- Placeholder counting distributes over concatenation. -/
theorem countPct_append (a b : PyStr) :
    countPct (a ++ b) = countPct a + countPct b := by
  simp [countPct, List.countP_append]

/-- The joined placeholder block `%s, %s, ..., %s` built for an
    `IN` / `NOT IN` list of `n` elements contains exactly `n`
    placeholders. -/
theorem countPct_placeholders (n : Nat) :
    countPct (pyJoin (pstr (", ")) (List.replicate n (pstr ("%s")))) = n := by
  induction n with
  | zero => decide
  | succ k ih =>
    cases k with
    | zero => decide
    | succ j =>
      rw [List.replicate_succ, pyJoin, countPct_append, countPct_append, ih]
      · have h1 : countPct (pstr ("%s")) = 1 := by decide
        have h2 : countPct (pstr (", ")) = 0 := by decide
        omega
      · simp

/-- A column name accepted by the WHERE / ORDER BY validator contains no
    `%` character (only `_` and `.` are stripped before `isalnum`, and
    `%` is not alphanumeric). -/
theorem countPct_eq_zero_of_valid (s : PyStr)
    (h : pyValidUnderscoreDot s = true) : countPct s = 0 := by
  rw [countPct, List.countP_eq_zero]
  intro c hc hpc
  have hc' : c = '%' := by simpa using hpc
  subst hc'
  have hmem : '%' ∈ pyRemoveChar (pyRemoveChar s '_') '.' := by
    simp [pyRemoveChar, List.mem_filter, hc]
  simp only [pyValidUnderscoreDot, pyIsAlnumStr, Bool.and_eq_true,
    List.all_eq_true, Bool.not_eq_true'] at h
  have hbad := h.2 '%' hmem
  revert hbad
  decide

/-- A string whose upper-casing lies in the operator allow-list contains
    no `%` character. -/
theorem countPct_op_eq_zero (op : PyStr)
    (h : pyUpper op ∈ allowedOperators) : countPct op = 0 := by
  rw [countPct, List.countP_eq_zero]
  intro c hc hpc
  have hc' : c = '%' := by simpa using hpc
  subst hc'
  have hmem : Char.toUpper '%' ∈ pyUpper op := List.mem_map_of_mem _ hc
  rw [show Char.toUpper '%' = '%' from by decide] at hmem
  simp only [allowedOperators, List.mem_cons, List.not_mem_nil, or_false] at h
  rcases h with h | h | h | h | h | h | h | h | h <;> rw [h] at hmem <;>
    revert hmem <;> decide

/-- C5: with a valid column, a `where` call whose operator upper-cases
    to `IN` / `NOT IN` rejects any non-list / non-tuple value with
    `ValidationError`, and on a list or tuple of `n` elements appends one
    fragment containing exactly `n` placeholders and the `n` elements to
    the bound parameters in their original order; a call with any other
    allow-listed operator appends one fragment with exactly one
    placeholder and exactly its one value to the bound parameters. -/
theorem c5_in_operator_placeholders (q : LazyQuery) (column : PyStr)
    (op : PyStr) (hcol : pyValidUnderscoreDot column = true) :
    ((pyUpper op = pstr ("IN") ∨ pyUpper op = pstr ("NOT IN")) →
      (∀ v, pyIsSeq v = false →
        LazyQuery.where_ q column v op = .error .validationError) ∧
      (∀ xs, ∃ frag,
        LazyQuery.where_ q column (PyVal.list xs) op =
          .ok { q with where_conditions := q.where_conditions ++ [frag],
                       where_params := q.where_params ++ xs.map PyScalar.toVal } ∧
        LazyQuery.where_ q column (PyVal.tuple xs) op =
          .ok { q with where_conditions := q.where_conditions ++ [frag],
                       where_params := q.where_params ++ xs.map PyScalar.toVal } ∧
        countPct frag = xs.length)) ∧
    ((pyUpper op ∈ allowedOperators ∧ pyUpper op ≠ pstr ("IN") ∧
        pyUpper op ≠ pstr ("NOT IN")) →
      ∀ v, ∃ frag,
        LazyQuery.where_ q column v op =
          .ok { q with where_conditions := q.where_conditions ++ [frag],
                       where_params := q.where_params ++ [v] } ∧
        countPct frag = 1) := by
  constructor
  · intro hop
    have hmem : pyUpper op ∈ allowedOperators := by
      rcases hop with h | h <;> rw [h] <;> decide
    have hcol0 : countPct column = 0 := countPct_eq_zero_of_valid column hcol
    have hop0 : countPct (pyUpper op) = 0 := by
      rcases hop with h | h <;> rw [h] <;> decide
    constructor
    · intro v hseq
      cases v <;> simp_all [LazyQuery.where_, hmem, hcol, hop, pyIsSeq]
    · intro xs
      refine ⟨column ++ pstr (" ") ++ pyUpper op ++ pstr (" (") ++
        pyJoin (pstr (", ")) (List.replicate xs.length (pstr ("%s"))) ++ pstr (")"),
        ?_, ?_, ?_⟩
      · simp [LazyQuery.where_, hmem, hcol, hop]
      · simp [LazyQuery.where_, hmem, hcol, hop]
      · simp only [countPct_append, hcol0, hop0, countPct_placeholders]
        have h1 : countPct (pstr (" ")) = 0 := by decide
        have h2 : countPct (pstr (" (")) = 0 := by decide
        have h3 : countPct (pstr (")")) = 0 := by decide
        omega
  · rintro ⟨hmem, hni, hnni⟩ v
    have hcol0 : countPct column = 0 := countPct_eq_zero_of_valid column hcol
    have hop0 : countPct op = 0 := countPct_op_eq_zero op hmem
    refine ⟨column ++ pstr (" ") ++ op ++ pstr (" %s"), ?_, ?_⟩
    · simp [LazyQuery.where_, hmem, hcol, hni, hnni]
    · simp only [countPct_append, hcol0, hop0]
      have h1 : countPct (pstr (" ")) = 0 := by decide
      have h2 : countPct (pstr (" %s")) = 1 := by decide
      omega

/-- C5 witness: `where("id", [1,2,3], "IN")` compiles to a 3-placeholder
    fragment with the three values bound in order, and `where("id", 7, "=")`
    to a single-placeholder fragment. -/
theorem c5_in_operator_placeholders_witness :
    (∃ frag,
      LazyQuery.where_ qFresh (pstr ("id"))
        (PyVal.list [PyScalar.int 1, PyScalar.int 2, PyScalar.int 3]) (pstr ("IN")) =
        .ok { qFresh with
          where_conditions := [frag],
          where_params := [PyVal.int 1, PyVal.int 2, PyVal.int 3] } ∧
      countPct frag = 3) ∧
    (∃ frag,
      LazyQuery.where_ qFresh (pstr ("id")) (PyVal.int 7) (pstr ("=")) =
        .ok { qFresh with where_conditions := [frag],
                          where_params := [PyVal.int 7] } ∧
      countPct frag = 1) ∧
    LazyQuery.where_ qFresh (pstr ("id")) (PyVal.int 7) (pstr ("IN")) =
      .error .validationError := by
  have h := c5_in_operator_placeholders qFresh (pstr ("id")) (pstr ("IN")) (by decide)
  have h2 := c5_in_operator_placeholders qFresh (pstr ("id")) (pstr ("="))  (by decide)
  refine ⟨?_, ?_, ?_⟩
  · obtain ⟨frag, ha, _, hb⟩ :=
      (h.1 (Or.inl (by decide))).2 [PyScalar.int 1, PyScalar.int 2, PyScalar.int 3]
    exact ⟨frag, ha, hb⟩
  · obtain ⟨frag, ha, hb⟩ :=
      (h2.2 ⟨by decide, by decide, by decide⟩) (PyVal.int 7)
    exact ⟨frag, ha, hb⟩
  · exact (h.1 (Or.inl (by decide))).1 (PyVal.int 7) (by decide)

/-- C6: for a cache-eligible fetch, a hit returns the stored rows with
    the cache unchanged and an empty event trace (no connection is
    acquired); on a miss, any failing outcome leaves the cache exactly as
    it was, and a successful outcome stores exactly the returned rows
    under the derived key. -/
theorem c6_cache_read_through (d : Driver) (f : LazyFetch) (c : Cache)
    (hc : f.use_cache = true) :
    (∀ v, cacheFind c f.key = some v → LazyFetch.get d f c = (.ok v, c, [])) ∧
    (cacheFind c f.key = Option.none →
      (∀ e, (LazyFetch.get d f c).1 = .error e → (LazyFetch.get d f c).2.1 = c) ∧
      (∀ v, (LazyFetch.get d f c).1 = .ok v →
        (LazyFetch.get d f c).2.1 = cacheSet c f.key v)) := by
  constructor
  · intro v hv
    simp [LazyFetch.get, hc, hv]
  · intro hmiss
    cases hgc : d.getConnectionOk with
    | false => simp [LazyFetch.get, hc, hmiss, hgc]
    | true =>
      cases hfl : fetch_lookups d f.modelArity f.query f.params with
      | mk res evs =>
        cases res with
        | error e => simp [LazyFetch.get, hc, hmiss, hgc, hfl]
        | ok data => simp [LazyFetch.get, hc, hmiss, hgc, hfl]

/-- Cache-eligible fetch of one row of a one-field model `User`. -/
def fetchUser : LazyFetch :=
  ⟨pstr ("User"), 1, pstr ("SELECT * FROM users"), Option.none, true⟩

/-- C6 witness: a concrete hit (stored rows returned, empty trace) and a
    concrete successful miss (cache extended with exactly the fetched
    rows). -/
theorem c6_cache_read_through_witness :
    LazyFetch.get drvOK fetchUser [(fetchUser.key, [[PyVal.int 9]])] =
      (.ok [[PyVal.int 9]], [(fetchUser.key, [[PyVal.int 9]])], []) ∧
    (LazyFetch.get ⟨true, true, true, true, true, [[PyVal.int 5]], 0⟩ fetchUser []).2.1 =
      cacheSet [] fetchUser.key [[PyVal.int 5]] := by
  constructor
  · exact (c6_cache_read_through drvOK fetchUser
      [(fetchUser.key, [[PyVal.int 9]])] rfl).1 [[PyVal.int 9]] (by decide)
  · exact ((c6_cache_read_through ⟨true, true, true, true, true, [[PyVal.int 5]], 0⟩
      fetchUser [] rfl).2 (by decide)).2 [[PyVal.int 5]] (by decide)

/-- Appending anything to a string keeps it a `startswith` match of
    itself. -/
theorem pyStartsWith_append (p s : PyStr) : pyStartsWith (p ++ s) p = true := by
  induction p with
  | nil => cases s <;> rfl
  | cons c cs ih => simp [pyStartsWith, ih]

/-- Cache-eligible fetch whose model type is named `User_Admin`. -/
def fetchUA : LazyFetch := ⟨pstr ("User_Admin"), 1, pstr ("q"), Option.none, true⟩

/-- C7 counterexample: `clear_cache("User")` also deletes the cache
    entry of the distinct model type `User_Admin` (its key
    `User_Admin_q_None` starts with `User_`), so entries of other types
    are not all left intact. -/
theorem c7_counterexample :
    clear_cache (some (pstr ("User"))) [(fetchUA.key, [[PyVal.int 1]])] = [] ∧
    fetchUA.modelName ≠ pstr ("User") := by
  decide

/-- C7 (amended): `clear_cache(T)` for a non-empty type name removes
    exactly the entries whose key starts with `T_`. Every entry of type
    `T` has such a key, so all of `T`'s entries are removed, and an entry
    whose key does not start with `T_` survives — but an entry of a
    different type whose name extends `T` past an underscore (for
    example `T_Admin`) is removed as well. `clear_cache()` with no
    argument empties the whole cache. -/
theorem c7_clear_cache_by_type (n : PyStr) (c : Cache) (hn : n ≠ []) :
    (∀ f : LazyFetch, f.modelName = n →
      ∀ v, (f.key, v) ∉ clear_cache (some n) c) ∧
    (∀ kv ∈ c, pyStartsWith kv.1 (n ++ pstr ("_")) = false →
      kv ∈ clear_cache (some n) c) ∧
    (∀ kv ∈ clear_cache (some n) c,
      kv ∈ c ∧ pyStartsWith kv.1 (n ++ pstr ("_")) = false) ∧
    clear_cache Option.none c = [] := by
  have hne : n.isEmpty = false := by
    cases n with
    | nil => exact absurd rfl hn
    | cons a l => simp
  have hcc : clear_cache (some n) c =
      c.filter (fun kv => pyStartsWith kv.1 (n ++ pstr ("_")) = false) := by
    simp [clear_cache, hne]
  refine ⟨?_, ?_, ?_, rfl⟩
  · intro f hf v hmemf
    rw [hcc] at hmemf
    have hpre : pyStartsWith f.key (n ++ pstr ("_")) = true := by
      rw [LazyFetch.key, hf]
      rw [show n ++ pstr ("_") ++ f.query ++ pstr ("_") ++ pyStrParams f.params =
        (n ++ pstr ("_")) ++ (f.query ++ pstr ("_") ++ pyStrParams f.params) from by
          simp [List.append_assoc]]
      exact pyStartsWith_append _ _
    have hfalse := (List.mem_filter.mp hmemf).2
    simp only [hpre] at hfalse
    revert hfalse
    decide
  · intro kv hkv hns
    rw [hcc]
    exact List.mem_filter.mpr ⟨hkv, by simp [hns]⟩
  · intro kv hkv
    rw [hcc] at hkv
    have h := List.mem_filter.mp hkv
    refine ⟨h.1, ?_⟩
    have h2 := h.2
    revert h2
    cases pyStartsWith kv.1 (n ++ pstr ("_")) <;> decide

/-- C7 witness: clearing type `User` removes its own entry and keeps an
    `Order` entry; a full clear empties the cache. -/
theorem c7_clear_cache_by_type_witness :
    (fetchUser.key, [[PyVal.int 9]]) ∉
      clear_cache (some (pstr ("User")))
        [(fetchUser.key, [[PyVal.int 9]]), (pstr ("Order_q_None"), [])] ∧
    (pstr ("Order_q_None"), ([] : List (List PyVal))) ∈
      clear_cache (some (pstr ("User")))
        [(fetchUser.key, [[PyVal.int 9]]), (pstr ("Order_q_None"), [])] ∧
    clear_cache Option.none
      [(fetchUser.key, [[PyVal.int 9]]), (pstr ("Order_q_None"), ([] : List (List PyVal)))] = [] := by
  have h := c7_clear_cache_by_type (pstr ("User"))
    [(fetchUser.key, [[PyVal.int 9]]), (pstr ("Order_q_None"), [])] (by decide)
  exact ⟨h.1 fetchUser rfl [[PyVal.int 9]],
    h.2.1 (pstr ("Order_q_None"), []) (by decide) (by decide),
    h.2.2.2⟩

/-- C8: compilation is a deterministic function of the accumulated draft
    state — compiling the draft returned by a first compile yields
    byte-identical SQL text and the same draft back (so any number of
    repeated compiles agree), and compilation never touches the bound
    parameters or their order. -/
theorem c8_compile_deterministic (q : LazyQuery) :
    (LazyQuery.build_query (LazyQuery.build_query q).1).2 =
      (LazyQuery.build_query q).2 ∧
    (LazyQuery.build_query (LazyQuery.build_query q).1).1 =
      (LazyQuery.build_query q).1 ∧
    (LazyQuery.build_query q).1.where_params = q.where_params := by
  refine ⟨?_, ?_, (build_query_fields q).2.2.1⟩ <;>
    cases h : q.select_columns.isEmpty <;>
      simp [LazyQuery.build_query, h]

/-- C9: `limit(n, offset)` succeeds exactly when both arguments are
    non-negative Python integers and fails with `ValidationError`
    otherwise; after `limit(0, 0)` the compiled SELECT is the no-limit
    text extended with the clause ` LIMIT 0` (hence differs from it),
    while a draft whose limit was never set compiles with no `LIMIT`
    clause at all. -/
theorem c9_limit_semantics (q : LazyQuery) :
    (∀ l off : PyVal,
      (LazyQuery.limit q l off = .error .validationError ↔
        ¬ ∃ n m : Int, l = PyVal.int n ∧ off = PyVal.int m ∧ 0 ≤ n ∧ 0 ≤ m)) ∧
    (∀ q1, LazyQuery.limit q (PyVal.int 0) (PyVal.int 0) = .ok q1 →
      (LazyQuery.build_query q1).2 =
        (LazyQuery.build_query { q1 with limit_value := Option.none }).2 ++
          pstr (" LIMIT 0") ∧
      (LazyQuery.build_query q1).2 ≠
        (LazyQuery.build_query { q1 with limit_value := Option.none }).2) ∧
    (q.limit_value = Option.none →
      limitClause (LazyQuery.build_query q).1 = [] ∧
      (LazyQuery.build_query q).2 =
        selectClause (LazyQuery.build_query q).1 ++
          whereClause (LazyQuery.build_query q).1 ++
          orderClause (LazyQuery.build_query q).1) := by
  refine ⟨?_, ?_, ?_⟩
  · intro l off
    cases l with
    | int n =>
      cases off with
      | int m =>
        by_cases hn : n < 0
        · simp [LazyQuery.limit, hn]
        · by_cases hm : m < 0
          · simp [LazyQuery.limit, hn, hm]
          · simp [LazyQuery.limit, hn, hm]
      | str s => simp [LazyQuery.limit]
      | none => simp [LazyQuery.limit]
      | list xs => simp [LazyQuery.limit]
      | tuple xs => simp [LazyQuery.limit]
    | str s => simp [LazyQuery.limit]
    | none => simp [LazyQuery.limit]
    | list xs => simp [LazyQuery.limit]
    | tuple xs => simp [LazyQuery.limit]
  · intro q1 h1
    have hq1 : q1 = { q with limit_value := some 0, offset_value := some 0 } := by
      simp [LazyQuery.limit] at h1
      exact h1.symm
    subst hq1
    have hzero : pyIntStr 0 = pstr ("0") := by decide
    have htail : pstr (" LIMIT ") ++ pstr ("0") = pstr (" LIMIT 0") := by decide
    have hmain : (LazyQuery.build_query { q with limit_value := some 0, offset_value := some 0 }).2 = (LazyQuery.build_query { q with limit_value := Option.none, offset_value := some 0 }).2 ++ pstr (" LIMIT 0") := by
      cases h : q.select_columns.isEmpty <;>
        simp [LazyQuery.build_query, h, selectClause, whereClause, orderClause,
          limitClause, hzero, htail, List.append_assoc]
    refine ⟨hmain, ?_⟩
    intro heq
    rw [hmain] at heq
    have hsame : (LazyQuery.build_query { q with limit_value := Option.none, offset_value := some 0 }).2 ++ pstr (" LIMIT 0") = (LazyQuery.build_query { q with limit_value := Option.none, offset_value := some 0 }).2 := heq
    have hlen := congrArg List.length hsame
    rw [List.length_append] at hlen
    have h8 : (pstr (" LIMIT 0")).length = 8 := by decide
    omega
  · intro hnone
    have hl : (LazyQuery.build_query q).1.limit_value = Option.none := by
      rw [(build_query_fields q).2.2.2.2.1, hnone]
    have hlc : limitClause (LazyQuery.build_query q).1 = [] := by
      simp [limitClause, hl]
    refine ⟨hlc, ?_⟩
    have hsnd : (LazyQuery.build_query q).2 =
        selectClause (LazyQuery.build_query q).1 ++
          whereClause (LazyQuery.build_query q).1 ++
          orderClause (LazyQuery.build_query q).1 ++
          limitClause (LazyQuery.build_query q).1 := by
      cases h : q.select_columns.isEmpty <;>
        simp [LazyQuery.build_query, h]
    rw [hsnd, hlc, List.append_nil]

/-- Fresh draft with an explicit zero limit and zero offset. -/
def qLim0 : LazyQuery := { qFresh with limit_value := some 0, offset_value := some 0 }

/-- C9 witness: a negative limit is rejected; `limit(0,0)` renders
    ` LIMIT 0` while the fresh draft renders no limit clause. -/
theorem c9_limit_semantics_witness :
    LazyQuery.limit qFresh (PyVal.int (-1)) (PyVal.int 0) =
      .error .validationError ∧
    (LazyQuery.build_query qLim0).2 =
      (LazyQuery.build_query { qLim0 with limit_value := Option.none }).2 ++
        pstr (" LIMIT 0") ∧
    limitClause (LazyQuery.build_query qFresh).1 = [] := by
  have h := c9_limit_semantics qFresh
  refine ⟨?_, ?_, (h.2.2 rfl).1⟩
  · refine (h.1 (PyVal.int (-1)) (PyVal.int 0)).mpr ?_
    rintro ⟨n, m, hn, hm, h0, h1⟩
    cases hn
    omega
  · exact (h.2.1 qLim0 (by decide)).1

/-- The draft a `to_list` call leaves behind is either the draft it was
    given (when `_ensure_connection` failed before the `try` block) or
    that draft as canonicalized by `_build_query`. -/
theorem to_list_draft (d : Driver) (q : LazyQuery) (st : ConnSt) :
    (LazyQuery.to_list d q st).2.1 = q ∨
    (LazyQuery.to_list d q st).2.1 = q.build_query.1 := by
  rw [LazyQuery.to_list]
  rcases h : ensure_connection d st with ⟨res, st1, evs⟩
  cases res with
  | error e => simp
  | ok u =>
    right
    cases hcur : st1.cur <;>
      cases he : d.executeOk <;>
        cases hr : d.rows.isEmpty <;>
          (simp [hcur, he, hr]; try (split <;> simp))

/-- A draft whose limit field is `1` always compiles to text containing
    the ` LIMIT 1` clause (followed only by the optional offset tail). -/
theorem build_query_limit_one (r : LazyQuery) (h : r.limit_value = some 1) :
    ∃ pre t, (LazyQuery.build_query r).2 = pre ++ pstr (" LIMIT 1") ++ t := by
  have hl : (LazyQuery.build_query r).1.limit_value = some 1 := by
    rw [(build_query_fields r).2.2.2.2.1, h]
  refine ⟨selectClause (LazyQuery.build_query r).1 ++
    whereClause (LazyQuery.build_query r).1 ++
    orderClause (LazyQuery.build_query r).1,
    (match (LazyQuery.build_query r).1.offset_value with
     | some m => if m ≠ 0 then pstr (" OFFSET ") ++ pyIntStr m else []
     | Option.none => []), ?_⟩
  have hsnd : (LazyQuery.build_query r).2 =
      selectClause (LazyQuery.build_query r).1 ++
        whereClause (LazyQuery.build_query r).1 ++
        orderClause (LazyQuery.build_query r).1 ++
        limitClause (LazyQuery.build_query r).1 := by
    cases hsc : r.select_columns.isEmpty <;> simp [LazyQuery.build_query, hsc]
  have hone : pyIntStr 1 = pstr ("1") := by decide
  have hsplit : pstr (" LIMIT ") ++ pstr ("1") = pstr (" LIMIT 1") := by decide
  have hlc : limitClause (LazyQuery.build_query r).1 =
      pstr (" LIMIT 1") ++
        (match (LazyQuery.build_query r).1.offset_value with
         | some m => if m ≠ 0 then pstr (" OFFSET ") ++ pyIntStr m else []
         | Option.none => []) := by
    rw [limitClause, hl]
    simp only [hone]
    rw [← hsplit, List.append_assoc]
  rw [hsnd, hlc]
  simp [List.append_assoc]

/-- C10 counterexample: on a fresh builder (no explicit column
    selection) a successful `first()` does not leave all other draft
    fields unchanged — the compilation it triggers canonicalizes the
    empty column list to `['*']`. -/
theorem c10_counterexample :
    (LazyQuery.first drvOK qFresh ⟨false, false⟩).2.1.select_columns = [pstr ("*")] ∧
    qFresh.select_columns = [] ∧
    (LazyQuery.first drvOK qFresh ⟨false, false⟩).2.1.select_columns ≠
      qFresh.select_columns := by
  decide

/-- C10 (amended): `first()` permanently sets the draft's limit to `1`
    (every later compile of the same builder renders ` LIMIT 1` until
    `limit()` is called again), leaves predicates, parameters, ordering,
    offset and table untouched, and leaves the selected columns unchanged
    whenever any were set — but when none were set, the compile performed
    by `first()` replaces the empty column list with `['*']`. -/
theorem c10_first_sets_limit_permanently (d : Driver) (q : LazyQuery) (st : ConnSt) :
    (LazyQuery.first d q st).2.1.limit_value = some 1 ∧
    (LazyQuery.first d q st).2.1.where_conditions = q.where_conditions ∧
    (LazyQuery.first d q st).2.1.where_params = q.where_params ∧
    (LazyQuery.first d q st).2.1.order_by = q.order_by ∧
    (LazyQuery.first d q st).2.1.offset_value = q.offset_value ∧
    (LazyQuery.first d q st).2.1.table_name = q.table_name ∧
    (q.select_columns ≠ [] →
      (LazyQuery.first d q st).2.1.select_columns = q.select_columns) ∧
    ((LazyQuery.first d q st).2.1.select_columns = q.select_columns ∨
      (q.select_columns = [] ∧
        (LazyQuery.first d q st).2.1.select_columns = [pstr ("*")])) ∧
    (∃ pre t, (LazyQuery.build_query (LazyQuery.first d q st).2.1).2 =
      pre ++ pstr (" LIMIT 1") ++ t) := by
  have hfd : (LazyQuery.first d q st).2.1 =
      (LazyQuery.to_list d { q with limit_value := some (1 : Int) } st).2.1 := by
    rw [LazyQuery.first]
    rcases h : LazyQuery.to_list d { q with limit_value := some (1 : Int) } st with
      ⟨res, q2, st2, evs⟩
    cases res <;> simp
  rw [hfd]
  rcases to_list_draft d { q with limit_value := some (1 : Int) } st with hdr | hdr <;>
    rw [hdr]
  · exact ⟨rfl, rfl, rfl, rfl, rfl, rfl, fun _ => rfl, Or.inl rfl,
      build_query_limit_one _ rfl⟩
  · rw [build_query_fst]
    cases hsc : ({ q with limit_value := some (1 : Int) } : LazyQuery).select_columns.isEmpty with
    | true =>
      have hq : q.select_columns = [] := by
        simpa [List.isEmpty_iff] using hsc
      simp only [if_pos rfl]
      refine ⟨rfl, rfl, rfl, rfl, rfl, rfl, fun hne => absurd hq hne,
        Or.inr ⟨hq, rfl⟩, build_query_limit_one _ rfl⟩
    | false =>
      simp only [hsc]
      refine ⟨rfl, rfl, rfl, rfl, rfl, rfl, fun _ => rfl, Or.inl rfl,
        build_query_limit_one _ rfl⟩

/-- Fresh draft with an explicit selected column. -/
def qCols : LazyQuery := { qFresh with select_columns := [pstr ("id")] }

/-- C10 witness: at a concrete builder with a selected column, `first()`
    sets the limit to `1`, keeps the column list, and the next compile
    contains ` LIMIT 1`. -/
theorem c10_first_sets_limit_permanently_witness :
    (LazyQuery.first drvOK qCols ⟨false, false⟩).2.1.limit_value = some 1 ∧
    (LazyQuery.first drvOK qCols ⟨false, false⟩).2.1.select_columns =
      qCols.select_columns ∧
    (∃ pre t,
      (LazyQuery.build_query (LazyQuery.first drvOK qCols ⟨false, false⟩).2.1).2 =
        pre ++ pstr (" LIMIT 1") ++ t) := by
  have h := c10_first_sets_limit_permanently drvOK qCols ⟨false, false⟩
  exact ⟨h.1, h.2.2.2.2.2.2.1 (by decide), h.2.2.2.2.2.2.2.2⟩
